import Mathlib

/-!
Verification of `isis_scripts/tgocassis_misregistration.py`.

The script batch-computes band misregistration over a tree of ISIS mosaic
files.  Its pure logic — fixed-offset scanning of `catlab` output
(`_bands`, `_size`), the band-file naming convention of `_explode`, the
skip policy of `_compute_bands_mismatch`, the visualization path
derivation, and the median/mean aggregation and CSV row layout of `main` —
is embedded below.  External process invocations (`catlab`, `explode`,
`coreg`), `tempfile` naming and the matplotlib/scipy rendering block are
modelled as an environment of opaque functions (`Env`); floating-point
sample values are modelled as rationals, with `Option ℚ` whose `none`
stands for numpy's NaN, and a fallible external step returns `Except`.
-/

namespace Tgocassis

/-! ## Python string primitives

`str.find`, slicing, `str.split`, `int()` and `'{:04d}'.format` are
re-implemented on `List Char` with Python's exact semantics (negative
result `-1` from `find`, negative slice indices counting from the end,
empty-separator-free `split` that keeps empty fields, whitespace-stripping
`int()` that fails on non-digits). -/

/-- Whitespace as stripped by Python's `int()` and `str.strip`. -/
def isWs (c : Char) : Bool :=
  c = ' ' || c = '\t' || c = '\n' || c = '\r' || c = '\x0b' || c = '\x0c'

/-- First index `≥ i` (absolute) at which `pat` occurs in the list, scanning
the suffix the caller passed. -/
def findAux (pat : List Char) : List Char → Nat → Option Nat
  | [], i => if pat.isEmpty then some i else none
  | c :: rest, i =>
    if pat.isPrefixOf (c :: rest) then some i else findAux pat rest (i + 1)

/-- Python `s.find(pat, start)`: absolute index of the first occurrence at or
after `start`, else `-1`. -/
def pyFind (s pat : String) (start : Nat) : Int :=
  match findAux pat.data (s.data.drop start) start with
  | some i => (i : Int)
  | none => -1

/-- Clamp one slice bound the way Python does: a negative index counts from
the end (clamped at 0), a non-negative one is clamped at the length. -/
def pySliceIdx (len : Nat) (i : Int) : Nat :=
  if i < 0 then ((len : Int) + i).toNat else min i.toNat len

/-- Python `s[a:b]`. -/
def pySlice (s : String) (a b : Int) : String :=
  let lo := pySliceIdx s.data.length a
  let hi := pySliceIdx s.data.length b
  String.mk ((s.data.take hi).drop lo)

/-- Fuelled worker for `pySplit`; fuel bounds the number of consumed
characters, so `s.length + 1` is always enough. -/
def splitFuel (sep : List Char) : Nat → List Char → List Char → List (List Char)
  | 0, l, acc => [acc.reverse ++ l]
  | _ + 1, [], acc => [acc.reverse]
  | fuel + 1, c :: rest, acc =>
    if sep.isPrefixOf (c :: rest) then
      acc.reverse :: splitFuel sep fuel (List.drop (sep.length - 1) rest) []
    else
      splitFuel sep fuel rest (c :: acc)

/-- Python `s.split(sep)` for a non-empty separator: keeps empty fields, and
`''.split(sep) = ['']`. -/
def pySplit (s sep : String) : List String :=
  (splitFuel sep.data (s.data.length + 1) s.data []).map String.mk

/-- Decimal value of a digit run. -/
def digitsVal (ds : List Char) : Int :=
  ds.foldl (fun a c => a * 10 + ((c.toNat : Int) - 48)) 0

/-- Python `int(s)`: strips whitespace, accepts an optional sign followed by
at least one digit, otherwise raises `ValueError` (modelled as `none`). -/
def pyInt (s : String) : Option Int :=
  let t := ((s.data.dropWhile isWs).reverse.dropWhile isWs).reverse
  match t with
  | [] => none
  | '-' :: ds => if ds ≠ [] && ds.all Char.isDigit then some (-(digitsVal ds)) else none
  | '+' :: ds => if ds ≠ [] && ds.all Char.isDigit then some (digitsVal ds) else none
  | ds => if ds.all Char.isDigit then some (digitsVal ds) else none

/-- Left-pad with zeros to width `w`: Python `'{:04d}'.format` for a
non-negative argument (wider numbers are kept whole). -/
def padZeros (w : Nat) (s : String) : String :=
  String.mk (List.replicate (w - s.length) '0') ++ s

/-- `os.path.join(d, f)` for a relative second component. -/
def pathJoin (d f : String) : String := d ++ "/" ++ f

/-- `os.path.basename`: the part after the last `/`. -/
def pyBasename (p : String) : String := (pySplit p "/").getLastD ""

/-- `_basename_wo_extension`: `os.path.basename(path).split('.')[0]`. -/
def basenameWoExtension (p : String) : String :=
  (pySplit (pyBasename p) ".").headD ""

/-! ## External Toolkit Adapter: `_bands` and `_size`

Both scan the text that `catlab from=<mosaic>` printed; the text is the
embedding's input. -/

/-- `_bands`: scan for `'FilterName = ('`, take the text up to `')\n'`, split
on `', '`.  When a marker is absent `find` yields `-1` and the arithmetic
still produces a (garbage) slice — no error is signalled, exactly as in the
source. -/
def bandsOfCatlab (outputString : String) : List String :=
  let startOfFiltersList := pyFind outputString "FilterName = (" 0 + 14
  let endOfFiltersList := pyFind outputString ")\n" startOfFiltersList.toNat
  let filtersString := pySlice outputString startOfFiltersList endOfFiltersList
  pySplit filtersString ", "

/-- `_size`: scan for `' Samples = '` and `' Lines   = '` (offset `+10`, as
in the source) and parse the slices with `int()`; `none` models the
`ValueError` that `int()` raises on a garbage slice. -/
def sizeOfCatlab (outputString : String) : Option (Int × Int) :=
  let s1 := pyFind outputString " Samples = " 0 + 10
  let e1 := pyFind outputString "\n" s1.toNat
  match pyInt (pySlice outputString s1 e1) with
  | none => none
  | some samples =>
    let s2 := pyFind outputString " Lines   = " 0 + 10
    let e2 := pyFind outputString "\n" s2.toNat
    match pyInt (pySlice outputString s2 e2) with
    | none => none
    | some lines => some (samples, lines)

/-! ## `_explode`: the band-file naming convention and the Python dict -/

/-- `'.band{:04d}.cub'.format(i)` appended to the explode target. -/
def bandSuffix (i : Nat) : String := ".band" ++ padZeros 4 (toString i) ++ ".cub"

/-- Python dict assignment `d[k] = v`: replace in place or append. -/
def dictInsert : List (String × String) → String → String → List (String × String)
  | [], k, v => [(k, v)]
  | (k0, v0) :: rest, k, v =>
    if k0 = k then (k0, v) :: rest else (k0, v0) :: dictInsert rest k v

/-- Python dict lookup `d[k]` / membership `k in d`. -/
def dictLookup : List (String × String) → String → Option String
  | [], _ => none
  | (k0, v0) :: rest, k => if k0 = k then some v0 else dictLookup rest k

/-- The loop of `_explode`: `for band_index, band_name in enumerate(bands_list)`
with `i` the 1-based index of the head. -/
def explodeAux (pre : String) : List String → Nat → List (String × String) → List (String × String)
  | [], _, d => d
  | name :: rest, i, d => explodeAux pre rest (i + 1) (dictInsert d name (pre ++ bandSuffix i))

/-- `path_to_band_files` of `_explode`, given the band list and the explode
target `explode_prefix` (`os.path.join(tempfile.mkdtemp(), basename)`). -/
def explodeDict (bandsList : List String) (pre : String) : List (String × String) :=
  explodeAux pre bandsList 1 []

/-! ## Data model and the external environment -/

/-- The four parallel columns `_register` reads out of the `coreg` flat
file: `(x_source, y_source, x_shift, y_shift)`.  Floats are modelled as
rationals. -/
structure ShiftSampleSet where
  xSource : List ℚ
  ySource : List ℚ
  xShift : List ℚ
  yShift : List ℚ
deriving DecidableEq

/-- The external world seen by the script: the text `catlab` prints for a
mosaic path, the directory `tempfile.mkdtemp()` yields while processing it,
the outcome of `_register` on a `(source, target)` band-file pair
(`Except.error` models an exception escaping `np.loadtxt` on a missing or
malformed results file), and the outcome of the visualization block of
`main` (`catlab` sizes, `scipy.interpolate.griddata`, `save_matrix`), which
can likewise raise. -/
structure Env where
  catlabOut : String → String
  mkdtempDir : String → String
  registerE : String → String → Except String ShiftSampleSet
  vizE : String → String → ShiftSampleSet → Except String Unit

/-- The band-name-to-band-file dict `_explode(mosaic)` builds:
`explode_prefix = os.path.join(tempfile.mkdtemp(), basename)` and one
`.band{NNNN}.cub` path per enumerated band of `_bands(mosaic)`. -/
def bandsFilesFor (env : Env) (mosaic : String) : List (String × String) :=
  explodeDict (bandsOfCatlab (env.catlabOut mosaic))
    (pathJoin (env.mkdtempDir mosaic) (basenameWoExtension mosaic))

/-- `_compute_bands_mismatch`: `None` (here `Except.ok none`) when the source
or target band is not a key of the exploded dict, otherwise whatever
`_register` produces on the two band files (an exception propagates). -/
def computeBandsMismatch (env : Env) (mosaic sourceBand targetBand : String) :
    Except String (Option ShiftSampleSet) :=
  let bandsFiles := bandsFilesFor env mosaic
  match dictLookup bandsFiles sourceBand, dictLookup bandsFiles targetBand with
  | some sf, some tf => (env.registerE sf tf).map some
  | _, _ => Except.ok none

/-! ## numpy statistics

`np.median` and `np.mean` on rationals; `none` models NaN, which numpy
returns (with a `RuntimeWarning`, not an exception) for an empty input, and
which contaminates a subsequent mean. -/

/-- Insert into a sorted list. -/
def insortQ : ℚ → List ℚ → List ℚ
  | x, [] => [x]
  | x, y :: ys => if x ≤ y then x :: y :: ys else y :: insortQ x ys

/-- Ascending sort, as `np.median` performs internally. -/
def sortQ (l : List ℚ) : List ℚ := l.foldr insortQ []

/-- `np.median`: middle element of the sorted list, or the mean of the two
middle ones; NaN (`none`) on an empty input. -/
def npMedian (l : List ℚ) : Option ℚ :=
  match l with
  | [] => none
  | _ :: _ =>
    let s := sortQ l
    let n := l.length
    if n % 2 = 1 then some (s.getD (n / 2) 0)
    else some ((s.getD (n / 2 - 1) 0 + s.getD (n / 2) 0) / 2)

/-- `np.mean` of a list of floats none of which is NaN. -/
def npMean (l : List ℚ) : Option ℚ :=
  if l.isEmpty then none else some (l.sum / (l.length : ℚ))

/-- `np.mean` of the accumulator lists of `main`, whose entries are medians
and may be NaN: NaN for an empty input and whenever an entry is NaN. -/
def npMeanOpt (l : List (Option ℚ)) : Option ℚ :=
  if l.isEmpty then none
  else if l.any fun o => o.isNone then none
  else npMean (l.filterMap id)

/-! ## The batch aggregator (`main`) -/

/-- One CSV cell of the report: either a raw shift-sample sequence (the
per-mosaic rows) or a single statistic that may be NaN (the `average`
row). -/
inductive CellVal where
  | arr : List ℚ → CellVal
  | num : Option ℚ → CellVal
deriving DecidableEq

/-- One row of the output CSV (fields `filename`, `x_shift`, `y_shift`). -/
structure Row where
  filename : String
  xCell : CellVal
  yCell : CellVal
deriving DecidableEq

/-- The header `csv.DictWriter` writes first. -/
def csvHeader : List String := ["filename", "x_shift", "y_shift"]

/-- `os.path.join(directory, filename[:-4] + '_x_shift.png')`. -/
def xShiftVizPath (directory filename : String) : String :=
  pathJoin directory (pySlice filename 0 (-4) ++ "_x_shift.png")

/-- `os.path.join(directory, filename[:-4] + '_y_shift.png')`. -/
def yShiftVizPath (directory filename : String) : String :=
  pathJoin directory (pySlice filename 0 (-4) ++ "_y_shift.png")

/-- The row `main` writes for a processed mosaic: the bare `filename` from
`os.walk` and the raw shift sequences. -/
def rowOfPair (p : String × ShiftSampleSet) : Row :=
  ⟨p.1, CellVal.arr p.2.xShift, CellVal.arr p.2.yShift⟩

/-- The walk loop of `main` over the flattened `(directory, filename)`
entries of `os.walk`, carrying the rows written so far and the two median
accumulators; ends by writing the `average` row.  An uncaught exception
(`Except.error`) aborts the whole traversal, as in the source, which has no
handler. -/
def mainLoop (env : Env) (sourceBand targetBand : String) (visualize : Bool) :
    List (String × String) → List Row → List (Option ℚ) → List (Option ℚ) →
    Except String (List Row)
  | [], rows, xs, ys =>
    Except.ok (rows ++
      [⟨"average", CellVal.num (npMeanOpt xs), CellVal.num (npMeanOpt ys)⟩])
  | (directory, filename) :: rest, rows, xs, ys =>
    if pyFind filename ".cub" 0 ≠ -1 then
      match computeBandsMismatch env (pathJoin directory filename) sourceBand targetBand with
      | Except.error e => Except.error e
      | Except.ok none => mainLoop env sourceBand targetBand visualize rest rows xs ys
      | Except.ok (some r) =>
        match (if visualize then
                 env.vizE (xShiftVizPath directory filename)
                   (yShiftVizPath directory filename) r
               else Except.ok ()) with
        | Except.error e => Except.error e
        | Except.ok _ =>
          mainLoop env sourceBand targetBand visualize rest
            (rows ++ [rowOfPair (filename, r)])
            (xs ++ [npMedian r.xShift]) (ys ++ [npMedian r.yShift])
    else mainLoop env sourceBand targetBand visualize rest rows xs ys

/-- `main` after the header: the data rows the run writes (the file is the
header followed by these), or the exception that aborted it. -/
def runMain (env : Env) (sourceBand targetBand : String) (visualize : Bool)
    (entries : List (String × String)) : Except String (List Row) :=
  mainLoop env sourceBand targetBand visualize entries [] [] []

/-! ## `save_matrix`: the display-range computation

Only the range computation has logic; `inf` sentinel cells are `none`.
`np.percentile` on the empty selection raises (numpy's own unstructured
error), modelled as `Except.error`. -/

/-- `np.percentile` with the default linear interpolation; numpy raises on
an empty array. -/
def npPercentile (l : List ℚ) (p : ℚ) : Except String ℚ :=
  if l.isEmpty then Except.error "IndexError: percentile of an empty array"
  else
    let s := sortQ l
    let n := l.length
    let h : ℚ := p / 100 * ((n : ℚ) - 1)
    let lo : Nat := (Int.floor h).toNat
    let frac : ℚ := h - (lo : ℚ)
    let a := s.getD lo 0
    let b := s.getD (min (lo + 1) (n - 1)) 0
    Except.ok (a + frac * (b - a))

/-- The `(vmin, vmax)` display range of `save_matrix`: the given bounds, or
the 0.1 / 99.9 percentiles of the non-`inf` values (`matrix[noninf_mask]`)
for each bound that was not given. -/
def saveMatrixRange (matrix : List (List (Option ℚ)))
    (minimumValue maximumValue : Option ℚ) : Except String (ℚ × ℚ) := do
  let vals := matrix.flatten.filterMap id
  let mn ← match minimumValue with
    | some v => Except.ok v
    | none => npPercentile vals (1 / 10)
  let mx ← match maximumValue with
    | some v => Except.ok v
    | none => npPercentile vals (999 / 10)
  Except.ok (mn, mx)

/-! ## Dictionary and `_explode` lemmas -/

theorem dictLookup_insert (k v q : String) :
    ∀ d : List (String × String),
    dictLookup (dictInsert d k v) q = if q = k then some v else dictLookup d q
  | [] => by
    simp only [dictInsert, dictLookup]
    by_cases h : q = k
    · simp [h]
    · have h' : ¬ k = q := fun e => h e.symm
      simp [h, h']
  | (k0, v0) :: tl => by
    simp only [dictInsert]
    by_cases h1 : k0 = k
    · rw [if_pos h1]
      subst h1
      simp only [dictLookup]
      by_cases h2 : k0 = q
      · subst h2; simp
      · have h2' : ¬ q = k0 := fun e => h2 e.symm
        simp [h2, h2']
    · rw [if_neg h1]
      simp only [dictLookup, dictLookup_insert k v q tl]
      by_cases h2 : k0 = q
      · subst h2
        simp [h1]
      · simp [h2]

theorem dictLookup_insert_isSome (d : List (String × String)) (k v q : String) :
    (dictLookup (dictInsert d k v) q).isSome ↔ (q = k ∨ (dictLookup d q).isSome) := by
  rw [dictLookup_insert]
  by_cases h : q = k <;> simp [h]

theorem dictInsert_length (d : List (String × String)) (k v : String) :
    (dictInsert d k v).length =
      if (dictLookup d k).isSome then d.length else d.length + 1 := by
  induction d with
  | nil => simp [dictInsert, dictLookup]
  | cons hd tl ih =>
    obtain ⟨k0, v0⟩ := hd
    simp only [dictInsert, dictLookup]
    split_ifs with h1 <;> simp_all

theorem explodeAux_lookup_of_not_mem (pre : String) (bl : List String) (q : String)
    (hq : q ∉ bl) : ∀ (i : Nat) (d : List (String × String)),
    dictLookup (explodeAux pre bl i d) q = dictLookup d q := by
  induction bl with
  | nil => intro i d; simp [explodeAux]
  | cons name rest ih =>
    intro i d
    simp only [List.mem_cons, not_or] at hq
    simp only [explodeAux]
    rw [ih hq.2, dictLookup_insert]
    simp [hq.1]

theorem explodeAux_lookup_isSome (pre q : String) : ∀ (bl : List String) (i : Nat)
    (d : List (String × String)),
    ((dictLookup (explodeAux pre bl i d) q).isSome ↔ (q ∈ bl ∨ (dictLookup d q).isSome)) := by
  intro bl
  induction bl with
  | nil => intro i d; simp [explodeAux]
  | cons name rest ih =>
    intro i d
    simp only [explodeAux, ih, dictLookup_insert_isSome, List.mem_cons]
    tauto

/-- Key membership in the dict `_explode` builds is exactly membership in the
band list, duplicates or not. -/
theorem explodeDict_lookup_isSome (bl : List String) (pre q : String) :
    ((dictLookup (explodeDict bl pre) q).isSome ↔ q ∈ bl) := by
  simp [explodeDict, explodeAux_lookup_isSome, dictLookup]

theorem explodeAux_lookup_get (pre : String) : ∀ (bl : List String), bl.Nodup →
    ∀ (i : Nat) (d : List (String × String)) (j : Nat) (h : j < bl.length),
    dictLookup (explodeAux pre bl i d) (bl.get ⟨j, h⟩) = some (pre ++ bandSuffix (i + j)) := by
  intro bl
  induction bl with
  | nil => intro _ i d j h; exact absurd h (by simp)
  | cons name rest ih =>
    intro hnd i d j h
    rw [List.nodup_cons] at hnd
    match j with
    | 0 =>
      simp only [List.get, explodeAux]
      rw [explodeAux_lookup_of_not_mem pre rest name hnd.1, dictLookup_insert]
      simp
    | j' + 1 =>
      have h' : j' < rest.length := by
        rw [List.length_cons] at h; omega
      simp only [List.get, explodeAux]
      rw [ih hnd.2 (i + 1) _ j' h']
      have e : i + 1 + j' = i + (j' + 1) := by omega
      rw [e]

theorem explodeAux_length (pre : String) : ∀ (bl : List String), bl.Nodup →
    ∀ (i : Nat) (d : List (String × String)), (∀ k ∈ bl, dictLookup d k = none) →
    (explodeAux pre bl i d).length = d.length + bl.length := by
  intro bl
  induction bl with
  | nil => intro _ i d _; simp [explodeAux]
  | cons name rest ih =>
    intro hnd i d hdisj
    rw [List.nodup_cons] at hnd
    simp only [explodeAux]
    rw [ih hnd.2 (i + 1) _ ?_]
    · rw [dictInsert_length, hdisj name (by simp)]
      simp; omega
    · intro k hk
      rw [dictLookup_insert]
      have : k ≠ name := fun e => hnd.1 (e ▸ hk)
      simp only [this, if_false]
      exact hdisj k (List.mem_cons_of_mem _ hk)

/-- An `Except.map some` is never `Except.ok none`: a present band pair never
produces the skip signal. -/
theorem except_map_some_ne_ok_none (e : Except String ShiftSampleSet) :
    Except.map some e ≠ Except.ok none := by
  cases e <;> simp [Except.map]

/-! ## Concrete environments used to instantiate the theorems -/

/-- A well-behaved external world: every mosaic lists bands `RED, NIR`,
temp directories land in `/tmp/t`, and `coreg` always succeeds with three
tile samples of x-shift 1 and y-shift 0. -/
def env0 : Env where
  catlabOut := fun _ => "FilterName = (RED, NIR)\n"
  mkdtempDir := fun _ => "/tmp/t"
  registerE := fun _ _ => Except.ok ⟨[10, 20, 30], [5, 5, 5], [1, 1, 1], [0, 0, 0]⟩
  vizE := fun _ _ _ => Except.ok ()

/-- C1: `_compute_bands_mismatch` returns the skip signal `None`
(`Except.ok none`, not an error) exactly when the source or target band
name is absent from the band list `_bands`/`listBands` reads out of the
`catlab` output; when both are present it returns whatever `_register`
produces on the two band files of the exploded dict. -/
theorem c1_computeBandsMismatch_notApplicable_iff
    (env : Env) (mosaic sourceBand targetBand : String) :
    (computeBandsMismatch env mosaic sourceBand targetBand = Except.ok none ↔
      sourceBand ∉ bandsOfCatlab (env.catlabOut mosaic) ∨
      targetBand ∉ bandsOfCatlab (env.catlabOut mosaic)) ∧
    (∀ sf tf, dictLookup (bandsFilesFor env mosaic) sourceBand = some sf →
      dictLookup (bandsFilesFor env mosaic) targetBand = some tf →
      computeBandsMismatch env mosaic sourceBand targetBand =
        Except.map some (env.registerE sf tf)) := by
  have hmem : ∀ q, ((dictLookup (bandsFilesFor env mosaic) q).isSome ↔
      q ∈ bandsOfCatlab (env.catlabOut mosaic)) := fun q =>
    explodeDict_lookup_isSome _ _ q
  constructor
  · rcases hs : dictLookup (bandsFilesFor env mosaic) sourceBand with _ | sf <;>
      rcases ht : dictLookup (bandsFilesFor env mosaic) targetBand with _ | tf
    · have h1 : sourceBand ∉ bandsOfCatlab (env.catlabOut mosaic) := by
        rw [← hmem]; simp [hs]
      simp [computeBandsMismatch, hs, ht, h1]
    · have h1 : sourceBand ∉ bandsOfCatlab (env.catlabOut mosaic) := by
        rw [← hmem]; simp [hs]
      simp [computeBandsMismatch, hs, ht, h1]
    · have h2 : targetBand ∉ bandsOfCatlab (env.catlabOut mosaic) := by
        rw [← hmem]; simp [ht]
      simp [computeBandsMismatch, hs, ht, h2]
    · have h1 : sourceBand ∈ bandsOfCatlab (env.catlabOut mosaic) := by
        rw [← hmem]; simp [hs]
      have h2 : targetBand ∈ bandsOfCatlab (env.catlabOut mosaic) := by
        rw [← hmem]; simp [ht]
      simp [computeBandsMismatch, hs, ht, h1, h2, except_map_some_ne_ok_none]
  · intro sf tf hsf htf
    simp [computeBandsMismatch, hsf, htf]

/-- C1 witness: in the concrete world `env0`, asking for `RED → NIR` on a
mosaic that has both bands yields exactly the registration result. -/
theorem c1_witness :
    computeBandsMismatch env0 "/in/m1.cub" "RED" "NIR" =
      Except.ok (some ⟨[10, 20, 30], [5, 5, 5], [1, 1, 1], [0, 0, 0]⟩) := by
  have h := (c1_computeBandsMismatch_notApplicable_iff env0 "/in/m1.cub" "RED" "NIR").2
    "/tmp/t/m1.band0001.cub" "/tmp/t/m1.band0002.cub" (by rfl) (by rfl)
  simpa [env0, Except.map] using h

/-- C4 counterexample: for a mosaic whose `catlab` output lists
`FilterName = (RED, RED)`, `listBands` has two entries but the exploded
dict has a single entry, and the file path the dict gives for the band at
position 0 carries suffix `.band0002.cub`, not the position-matching
`.band0001.cub`. -/
theorem c4_counterexample :
    bandsOfCatlab "FilterName = (RED, RED)\n" = ["RED", "RED"] ∧
    (explodeDict (bandsOfCatlab "FilterName = (RED, RED)\n") "/tmp/t/m").length = 1 ∧
    dictLookup (explodeDict (bandsOfCatlab "FilterName = (RED, RED)\n") "/tmp/t/m")
        ((bandsOfCatlab "FilterName = (RED, RED)\n").getD 0 "") =
      some ("/tmp/t/m" ++ bandSuffix 2) ∧
    ("/tmp/t/m" ++ bandSuffix 2 : String) ≠ "/tmp/t/m" ++ bandSuffix (0 + 1) :=
  ⟨by rfl, by rfl, by rfl, by decide⟩

/-- C4 (amended): for every mosaic whose band-name list is duplicate-free,
the dict `_explode` builds has exactly one entry per band of `listBands`,
and the path of the band at 0-based position `i` carries the 1-based,
4-digit zero-padded suffix `.band{i+1:04d}.cub`. -/
theorem c4_explode_entries_match_band_order (bandsList : List String) (pre : String)
    (hnd : bandsList.Nodup) :
    (explodeDict bandsList pre).length = bandsList.length ∧
    ∀ (i : Nat) (h : i < bandsList.length),
      dictLookup (explodeDict bandsList pre) (bandsList.get ⟨i, h⟩) =
        some (pre ++ bandSuffix (i + 1)) := by
  constructor
  · have h := explodeAux_length pre bandsList hnd 1 [] (fun k _ => rfl)
    simpa [explodeDict] using h
  · intro i h
    have hg := explodeAux_lookup_get pre bandsList hnd 1 [] i h
    rw [explodeDict, hg, Nat.add_comm 1 i]

/-- C4 witness: the two-band list `RED, NIR` yields a two-entry dict whose
second band maps to the `.band0002.cub` file. -/
theorem c4_witness :
    (explodeDict ["RED", "NIR"] "/tmp/t/m").length = 2 ∧
    dictLookup (explodeDict ["RED", "NIR"] "/tmp/t/m") "NIR" =
      some ("/tmp/t/m" ++ bandSuffix 2) := by
  have h := c4_explode_entries_match_band_order ["RED", "NIR"] "/tmp/t/m" (by decide)
  exact ⟨h.1, by have h2 := h.2 1 (by decide); simpa using h2⟩

/-- C5: on metadata text in which the fixed markers are absent the code
signals no structured error: `_bands` silently returns a garbage band list
(`['']` on empty output, a random slice otherwise) and `_size` dies with
`int()`'s own `ValueError` (modelled `none`); no `MetadataParseError`
exists anywhere in the program. -/
theorem c5_missing_marker_yields_garbage_not_structured_error :
    bandsOfCatlab "" = [""] ∧
    bandsOfCatlab "no markers here\n" = ["re"] ∧
    sizeOfCatlab "" = none :=
  ⟨rfl, rfl, rfl⟩

/-- C7: for a matrix whose values are all the `inf` sentinel and no explicit
display range, the percentile selection `matrix[noninf_mask]` is empty and
`np.percentile` raises numpy's own unstructured error — not an
`EmptyMatrixError`, which the program never defines. -/
theorem c7_all_sentinel_matrix_percentile_error :
    saveMatrixRange [[none, none], [none, none]] none none =
      Except.error "IndexError: percentile of an empty array" :=
  rfl

/-- C9: the two visualization paths are the file's own directory joined
with the filename minus exactly its last four characters plus
`_x_shift.png` / `_y_shift.png`; for `m.cub.bak` — selected because
`.cub` is a substring — the image name is `m.cub_x_shift.png`, which is
not `<mosaic-basename>_x_shift.png` (the basename is `m`). -/
theorem c9_viz_paths_strip_last_four_chars :
    (∀ directory filename : String,
      xShiftVizPath directory filename =
        pathJoin directory (pySlice filename 0 (-4) ++ "_x_shift.png") ∧
      yShiftVizPath directory filename =
        pathJoin directory (pySlice filename 0 (-4) ++ "_y_shift.png")) ∧
    pyFind "m.cub.bak" ".cub" 0 ≠ -1 ∧
    xShiftVizPath "/data" "m.cub.bak" = "/data/m.cub_x_shift.png" ∧
    basenameWoExtension (pathJoin "/data" "m.cub.bak") = "m" ∧
    xShiftVizPath "/data" "m.cub.bak" ≠
      pathJoin "/data" (basenameWoExtension (pathJoin "/data" "m.cub.bak") ++ "_x_shift.png") :=
  ⟨fun _ _ => ⟨rfl, rfl⟩, by decide, by rfl, by rfl, by decide⟩

/-- C8: aggregation over empty data is defined, never a crash: `np.median`
and `np.mean` of an empty sequence are the NaN "no data" value (numpy warns
but does not raise), and a run over an empty input tree completes, its
output being the header followed by the single `average` row with NaN in
both shift fields. -/
theorem c8_empty_data_defined (env : Env) (sourceBand targetBand : String)
    (visualize : Bool) :
    npMedian [] = none ∧ npMean [] = none ∧ npMeanOpt [] = none ∧
    csvHeader = ["filename", "x_shift", "y_shift"] ∧
    runMain env sourceBand targetBand visualize [] =
      Except.ok [⟨"average", CellVal.num none, CellVal.num none⟩] :=
  ⟨rfl, rfl, rfl, rfl, rfl⟩

/-! ## The shape of a completed run -/

/-- Any completed traversal writes, after the rows and accumulators carried
so far, one row per processed mosaic (bare filename, raw shift sequences)
and then exactly one `average` row holding the mean of the accumulated
per-mosaic medians. -/
theorem mainLoop_ok_shape (env : Env) (s t : String) (viz : Bool) :
    ∀ (entries : List (String × String)) (rows : List Row) (xs ys : List (Option ℚ))
      (out : List Row),
    mainLoop env s t viz entries rows xs ys = Except.ok out →
    ∃ ps : List (String × ShiftSampleSet),
      out = rows ++ ps.map rowOfPair ++
        [⟨"average",
          CellVal.num (npMeanOpt (xs ++ ps.map fun p => npMedian p.2.xShift)),
          CellVal.num (npMeanOpt (ys ++ ps.map fun p => npMedian p.2.yShift))⟩] := by
  intro entries
  induction entries with
  | nil =>
    intro rows xs ys out h
    refine ⟨[], ?_⟩
    simp only [mainLoop, Except.ok.injEq] at h
    simp [← h]
  | cons entry rest ih =>
    obtain ⟨d, f⟩ := entry
    intro rows xs ys out h
    simp only [mainLoop] at h
    split at h
    · split at h
      · exact absurd h (by simp)
      · exact ih rows xs ys out h
      · rename_i r heqr
        split at h
        · exact absurd h (by simp)
        · obtain ⟨ps', hps⟩ := ih _ _ _ _ h
          refine ⟨(f, r) :: ps', ?_⟩
          simp only [hps, List.map_cons, List.append_assoc, List.cons_append,
            List.nil_append, List.singleton_append]
    · exact ih rows xs ys out h

/-- C2: whenever the batch completes, its output rows are exactly one row
per mosaic with shift data — in traversal order, each having contributed
the median of its x-shift samples and the median of its y-shift samples to
the two accumulators — followed by exactly one final row whose filename
field is the literal `"average"` and whose shift fields are the
dataset-wide mean of the collected per-mosaic medians. -/
theorem c2_rows_then_average_of_medians (env : Env) (sourceBand targetBand : String)
    (visualize : Bool) (entries : List (String × String)) (out : List Row)
    (h : runMain env sourceBand targetBand visualize entries = Except.ok out) :
    ∃ ps : List (String × ShiftSampleSet),
      out = ps.map rowOfPair ++
        [⟨"average",
          CellVal.num (npMeanOpt (ps.map fun p => npMedian p.2.xShift)),
          CellVal.num (npMeanOpt (ps.map fun p => npMedian p.2.yShift))⟩] := by
  have hs := mainLoop_ok_shape env sourceBand targetBand visualize entries [] [] [] out h
  simpa using hs

/-- C2 witness: the single-mosaic run in `env0` produces its mosaic row and
then the `average` row carrying the mean of the collected medians. -/
theorem c2_witness :
    ∃ ps : List (String × ShiftSampleSet),
      [rowOfPair ("m1.cub", ⟨[10, 20, 30], [5, 5, 5], [1, 1, 1], [0, 0, 0]⟩),
       ⟨"average", CellVal.num (some 1), CellVal.num (some 0)⟩] =
        ps.map rowOfPair ++
          [⟨"average",
            CellVal.num (npMeanOpt (ps.map fun p => npMedian p.2.xShift)),
            CellVal.num (npMeanOpt (ps.map fun p => npMedian p.2.yShift))⟩] :=
  c2_rows_then_average_of_medians env0 "RED" "NIR" false [("d", "m1.cub")] _ (by
    simp +decide [env0, Except.map, runMain, mainLoop, computeBandsMismatch, bandsFilesFor,
      bandsOfCatlab, pyFind, findAux, pySlice, pySliceIdx, pySplit, splitFuel, pathJoin,
      basenameWoExtension, pyBasename, explodeDict, explodeAux, dictInsert, dictLookup,
      bandSuffix, padZeros, rowOfPair, npMedian, npMeanOpt, npMean, sortQ, insortQ,
      List.isPrefixOf])

/-- C10: the row written for a processed mosaic records only the bare
`os.walk` filename — the directory does not enter it — so two mosaics with
the same filename in different subdirectories that register identically
produce two indistinguishable rows. -/
theorem c10_rows_forget_directory (env : Env) (sourceBand targetBand : String)
    (d1 d2 f : String) (r : ShiftSampleSet)
    (hc : pyFind f ".cub" 0 ≠ -1)
    (h1 : computeBandsMismatch env (pathJoin d1 f) sourceBand targetBand =
      Except.ok (some r))
    (h2 : computeBandsMismatch env (pathJoin d2 f) sourceBand targetBand =
      Except.ok (some r)) :
    runMain env sourceBand targetBand false [(d1, f), (d2, f)] =
      Except.ok [rowOfPair (f, r), rowOfPair (f, r),
        ⟨"average",
          CellVal.num (npMeanOpt [npMedian r.xShift, npMedian r.xShift]),
          CellVal.num (npMeanOpt [npMedian r.yShift, npMedian r.yShift])⟩] := by
  simp [runMain, mainLoop, hc, h1, h2]

/-- C10 witness: same filename `m.cub` under `/a` and `/b` in `env0` gives
two equal rows. -/
theorem c10_witness :
    runMain env0 "RED" "NIR" false [("/a", "m.cub"), ("/b", "m.cub")] =
      Except.ok
        [rowOfPair ("m.cub", ⟨[10, 20, 30], [5, 5, 5], [1, 1, 1], [0, 0, 0]⟩),
         rowOfPair ("m.cub", ⟨[10, 20, 30], [5, 5, 5], [1, 1, 1], [0, 0, 0]⟩),
         ⟨"average",
           CellVal.num (npMeanOpt [npMedian [1, 1, 1], npMedian [1, 1, 1]]),
           CellVal.num (npMeanOpt [npMedian [0, 0, 0], npMedian [0, 0, 0]])⟩] :=
  c10_rows_forget_directory env0 "RED" "NIR" "/a" "/b" "m.cub"
    ⟨[10, 20, 30], [5, 5, 5], [1, 1, 1], [0, 0, 0]⟩ (by decide) (by rfl) (by rfl)

/-- A world in which the `coreg` results for mosaic `a.cub` are malformed
(`np.loadtxt` raises) while mosaic `b.cub` registers fine. -/
def envBad : Env where
  catlabOut := fun _ => "FilterName = (RED, NIR)\n"
  mkdtempDir := fun _ => "/tmp/t"
  registerE := fun sf _ =>
    if sf = "/tmp/t/a.band0001.cub" then
      Except.error "ValueError: could not load coreg results"
    else Except.ok ⟨[10], [5], [2], [3]⟩
  vizE := fun _ _ _ => Except.ok ()

/-- C3: `main` has no handler around a mosaic's processing, so an error in
one mosaic's registration aborts the whole traversal — later mosaics are
never processed and the final `average` row is never written — although the
same later mosaic processes fine on its own. -/
theorem c3_error_in_one_mosaic_aborts_traversal :
    runMain envBad "RED" "NIR" false [("/in", "a.cub"), ("/in", "b.cub")] =
      Except.error "ValueError: could not load coreg results" ∧
    runMain envBad "RED" "NIR" false [("/in", "b.cub")] =
      Except.ok [rowOfPair ("b.cub", ⟨[10], [5], [2], [3]⟩),
        ⟨"average", CellVal.num (some 2), CellVal.num (some 3)⟩] := by
  constructor
  · rfl
  · simp +decide [envBad, Except.map, runMain, mainLoop, computeBandsMismatch, bandsFilesFor,
      bandsOfCatlab, pyFind, findAux, pySlice, pySliceIdx, pySplit, splitFuel, pathJoin,
      basenameWoExtension, pyBasename, explodeDict, explodeAux, dictInsert, dictLookup,
      bandSuffix, padZeros, rowOfPair, npMedian, npMeanOpt, npMean, sortQ, insortQ,
      List.isPrefixOf]

end Tgocassis
